import Mathlib

/-!
# Verification of the gaussdb-diesel adapter

Shallow embedding of the parts of the `gaussdb-diesel` crate that the
specification claims talk about:

* `src/types/date_and_time.rs` and `src/types/primitives.rs`: binary
  (de)serialization of date/time values and integer primitives in the
  PostgreSQL network (big-endian) wire format;
* `src/performance.rs`: the TTL/LRU query-string cache;
* `src/monitoring.rs`: atomic metric counters and the health check;
* `src/query_builder/returning.rs`, `copy/copy_from.rs`,
  `limit_offset_impl.rs`: SQL fragment emitters.

Machine integers are modelled as `Nat`/`Int` with explicit reduction
modulo `2 ^ w`; a raw SQL value (`GaussDBValue`) is `Option (List Nat)`
(`none` for the SQL NULL, each byte a `Nat` below 256); fallible
operations return `Except String`.
-/

set_option autoImplicit false

namespace GaussDB

/-! ## Big-endian byte encoding (the `byteorder` NetworkEndian routines) -/

/-- Big-endian bytes of `v`, `w` bytes wide (the write side of
`byteorder::NetworkEndian`): most significant byte first. -/
def natToBytesBE : Nat → Nat → List Nat
  | 0, _ => []
  | w + 1, v => natToBytesBE w (v / 256) ++ [v % 256]

/-- Reassemble a big-endian byte list into a `Nat`
(the read side of `byteorder::NetworkEndian`). -/
def bytesToNatBE (bs : List Nat) : Nat :=
  bs.foldl (fun acc b => acc * 256 + b) 0

@[simp] theorem length_natToBytesBE (w v : Nat) :
    (natToBytesBE w v).length = w := by
  induction w generalizing v with
  | zero => rfl
  | succ w ih => simp [natToBytesBE, ih]

theorem bytesToNatBE_natToBytesBE (w v : Nat) :
    bytesToNatBE (natToBytesBE w v) = v % 256 ^ w := by
  induction w generalizing v with
  | zero => simp [natToBytesBE, bytesToNatBE, Nat.mod_one]
  | succ w ih =>
    have h256 : (0:Nat) < 256 := by norm_num
    have hsplit : v % 256 ^ (w + 1) = v % 256 + 256 * (v / 256 % 256 ^ w) := by
      rw [pow_succ, mul_comm (256 ^ w) 256, Nat.mod_mul]
    simp only [natToBytesBE, bytesToNatBE, List.foldl_append, List.foldl_cons,
      List.foldl_nil]
    have := ih (v / 256)
    simp only [bytesToNatBE] at this
    rw [this, hsplit]
    ring

/-- Two's-complement encoding of an `Int` into `w` big-endian bytes
(what `write_iN::<NetworkEndian>` produces). -/
def intToBytesBE (w : Nat) (x : Int) : List Nat :=
  natToBytesBE w (x % (2 ^ (8 * w) : Nat)).toNat

/-- Two's-complement decoding of `w` big-endian bytes into an `Int`
(what `read_iN::<NetworkEndian>` computes from the bytes it consumes). -/
def bytesToIntBE (w : Nat) (bs : List Nat) : Int :=
  let u := bytesToNatBE bs
  if u < 2 ^ (8 * w - 1) then (u : Int) else (u : Int) - 2 ^ (8 * w)

/-- `x` fits in a `w`-byte signed machine integer. -/
def fitsSigned (w : Nat) (x : Int) : Prop :=
  -(2 ^ (8 * w - 1)) ≤ x ∧ x < 2 ^ (8 * w - 1)

instance (w : Nat) (x : Int) : Decidable (fitsSigned w x) := by
  unfold fitsSigned; infer_instance

theorem bytesToIntBE_intToBytesBE (w : Nat) (hw : 1 ≤ w) (x : Int)
    (hx : fitsSigned w x) :
    bytesToIntBE w (intToBytesBE w x) = x := by
  obtain ⟨hlo, hhi⟩ := hx
  have hexp : 8 * w - 1 + 1 = 8 * w := by omega
  have hMA : (2 ^ (8 * w) : Nat) = 2 * 2 ^ (8 * w - 1) := by
    conv_lhs => rw [← hexp]
    rw [pow_succ]
    ring
  have hcastM : ((2 ^ (8 * w) : Nat) : Int) = 2 ^ (8 * w) := by push_cast; ring
  have hcastA : ((2 ^ (8 * w - 1) : Nat) : Int) = 2 ^ (8 * w - 1) := by push_cast; ring
  rw [← hcastA] at hlo hhi
  have hMAi : ((2 ^ (8 * w) : Nat) : Int) = 2 * ((2 ^ (8 * w - 1) : Nat) : Int) := by
    exact_mod_cast congrArg (fun n : Nat => (n : Int)) hMA
  have hMposN : (0 : Nat) < 2 ^ (8 * w) := by positivity
  have hbound : 0 ≤ x % ((2 ^ (8 * w) : Nat) : Int) ∧
      x % ((2 ^ (8 * w) : Nat) : Int) < ((2 ^ (8 * w) : Nat) : Int) := by
    constructor
    · exact Int.emod_nonneg x (by exact_mod_cast hMposN.ne')
    · exact Int.emod_lt_of_pos x (by exact_mod_cast hMposN)
  have hu : bytesToNatBE (intToBytesBE w x) = (x % ((2 ^ (8 * w) : Nat) : Int)).toNat := by
    rw [intToBytesBE, bytesToNatBE_natToBytesBE]
    have h256 : (256 : Nat) ^ w = 2 ^ (8 * w) := by
      rw [show (256:Nat) = 2 ^ 8 by norm_num, ← pow_mul]
    rw [h256]
    have hlt : (x % ((2 ^ (8 * w) : Nat) : Int)).toNat < 2 ^ (8 * w) := by omega
    exact Nat.mod_eq_of_lt hlt
  rcases le_or_lt 0 x with hpos | hneg
  · have hxmod : x % ((2 ^ (8 * w) : Nat) : Int) = x :=
      Int.emod_eq_of_lt hpos (by omega)
    rw [bytesToIntBE, hu, hxmod, ← hcastM]
    have hlt : x.toNat < 2 ^ (8 * w - 1) := by omega
    simp only [hlt, if_pos]
    omega
  · have hxmod : x % ((2 ^ (8 * w) : Nat) : Int) = x + ((2 ^ (8 * w) : Nat) : Int) := by
      rw [← Int.add_mul_emod_self_left x ((2 ^ (8 * w) : Nat) : Int) 1, mul_one]
      exact Int.emod_eq_of_lt (by omega) (by omega)
    rw [bytesToIntBE, hu, hxmod, ← hcastM]
    have hge : ¬ ((x + ((2 ^ (8 * w) : Nat) : Int)).toNat < 2 ^ (8 * w - 1)) := by
      omega
    simp only [hge, if_neg, if_false]
    omega

/-- The cursor-based read of a `w`-byte big-endian signed integer
(`std::io::Cursor` + `read_iN::<NetworkEndian>`): fails when fewer than
`w` bytes remain, otherwise consumes exactly `w` bytes and returns the
decoded value together with the remaining bytes. -/
def readIntBE (w : Nat) (bs : List Nat) : Except String (Int × List Nat) :=
  if bs.length < w then .error "failed to fill whole buffer"
  else .ok (bytesToIntBE w (bs.take w), bs.drop w)

theorem readIntBE_encode (w : Nat) (hw : 1 ≤ w) (x : Int) (hx : fitsSigned w x)
    (r : List Nat) : readIntBE w (intToBytesBE w x ++ r) = .ok (x, r) := by
  have hlen : (intToBytesBE w x).length = w := by
    simp [intToBytesBE]
  have hnlt : ¬ ((intToBytesBE w x ++ r).length < w) := by
    rw [List.length_append, hlen]; omega
  rw [readIntBE, if_neg hnlt]
  have htake : (intToBytesBE w x ++ r).take w = intToBytesBE w x :=
    List.take_left' hlen
  have hdrop : (intToBytesBE w x ++ r).drop w = r :=
    List.drop_left' hlen
  rw [htake, hdrop, bytesToIntBE_intToBytesBE w hw x hx]

/-! ## `src/types/date_and_time.rs`: the date/time wrapper types -/

/-- `GaussDBTimestamp(pub i64)`: microseconds since 2000-01-01. -/
structure GaussDBTimestamp where
  microseconds : Int
  deriving DecidableEq, Repr

/-- `GaussDBDate(pub i32)`: julian days since 2000-01-01. -/
structure GaussDBDate where
  julian_days : Int
  deriving DecidableEq, Repr

/-- `GaussDBTime(pub i64)`: microseconds since midnight. -/
structure GaussDBTime where
  microseconds : Int
  deriving DecidableEq, Repr

/-- `GaussDBInterval { months: i32, days: i32, microseconds: i64 }`. -/
structure GaussDBInterval where
  months : Int
  days : Int
  microseconds : Int
  deriving DecidableEq, Repr

/-- `FromSql<Timestamp, GaussDB> for GaussDBTimestamp`. -/
def GaussDBTimestamp.from_sql (v : Option (List Nat)) :
    Except String GaussDBTimestamp :=
  match v with
  | none => .error "Timestamp value is null"
  | some bytes =>
      if bytes.length ≠ 8 then .error "Invalid Timestamp length"
      else (readIntBE 8 bytes).map fun p => ⟨p.1⟩

/-- `FromSql<Timestamptz, GaussDB> for GaussDBTimestamp`. -/
def GaussDBTimestamp.from_sql_tz (v : Option (List Nat)) :
    Except String GaussDBTimestamp :=
  match v with
  | none => .error "Timestamptz value is null"
  | some bytes =>
      if bytes.length ≠ 8 then .error "Invalid Timestamptz length"
      else (readIntBE 8 bytes).map fun p => ⟨p.1⟩

/-- `FromSql<Date, GaussDB> for GaussDBDate`. -/
def GaussDBDate.from_sql (v : Option (List Nat)) : Except String GaussDBDate :=
  match v with
  | none => .error "Date value is null"
  | some bytes =>
      if bytes.length ≠ 4 then .error "Invalid Date length"
      else (readIntBE 4 bytes).map fun p => ⟨p.1⟩

/-- `FromSql<Time, GaussDB> for GaussDBTime`. -/
def GaussDBTime.from_sql (v : Option (List Nat)) : Except String GaussDBTime :=
  match v with
  | none => .error "Time value is null"
  | some bytes =>
      if bytes.length ≠ 8 then .error "Invalid Time length"
      else (readIntBE 8 bytes).map fun p => ⟨p.1⟩

/-- `FromSql<Interval, GaussDB> for GaussDBInterval`: reads microseconds
(i64), then days (i32), then months (i32) from a 16-byte value. -/
def GaussDBInterval.from_sql (v : Option (List Nat)) :
    Except String GaussDBInterval :=
  match v with
  | none => .error "Interval value is null"
  | some bytes =>
      if bytes.length ≠ 16 then .error "Invalid Interval length"
      else do
        let (microseconds, rest) ← readIntBE 8 bytes
        let (days, rest') ← readIntBE 4 rest
        let (months, _) ← readIntBE 4 rest'
        pure ⟨months, days, microseconds⟩

/-- `ToSql<Timestamp, GaussDB> for GaussDBTimestamp` (also the
`Timestamptz` impl, whose body is identical): `write_i64::<NetworkEndian>`. -/
def GaussDBTimestamp.to_sql (t : GaussDBTimestamp) : List Nat :=
  intToBytesBE 8 t.microseconds

/-- `ToSql<Date, GaussDB> for GaussDBDate`: `write_i32::<NetworkEndian>`. -/
def GaussDBDate.to_sql (d : GaussDBDate) : List Nat :=
  intToBytesBE 4 d.julian_days

/-- `ToSql<Time, GaussDB> for GaussDBTime`: `write_i64::<NetworkEndian>`. -/
def GaussDBTime.to_sql (t : GaussDBTime) : List Nat :=
  intToBytesBE 8 t.microseconds

/-- `ToSql<Interval, GaussDB> for GaussDBInterval`: writes microseconds
(8 bytes), then days (4 bytes), then months (4 bytes), network order. -/
def GaussDBInterval.to_sql (i : GaussDBInterval) : List Nat :=
  intToBytesBE 8 i.microseconds ++ intToBytesBE 4 i.days ++ intToBytesBE 4 i.months

/-- Reduction of `Except` bind at an `ok` value. -/
theorem bindOk {ε α β : Type} (a : α) (f : α → Except ε β) :
    (Except.ok a : Except ε α) >>= f = f a := rfl

theorem readIntBE_encode_nil (w : Nat) (hw : 1 ≤ w) (x : Int)
    (hx : fitsSigned w x) : readIntBE w (intToBytesBE w x) = .ok (x, []) := by
  have h := readIntBE_encode w hw x hx []
  rwa [List.append_nil] at h

theorem readIntBE_exact (w : Nat) (bs : List Nat) (h : bs.length = w) :
    readIntBE w bs = .ok (bytesToIntBE w bs, []) := by
  rw [readIntBE, if_neg (by omega)]
  have htake : bs.take w = bs := List.take_of_length_le (by omega)
  have hdrop : bs.drop w = [] := List.drop_eq_nil_of_le (by omega)
  rw [htake, hdrop]

/-! ## `src/types/primitives.rs`: integer and boolean deserialization -/

/-- `FromSql<SmallInt, GaussDB> for i16`. -/
def fromSql_SmallInt (v : Option (List Nat)) : Except String Int :=
  match v with
  | none => .error "SmallInt value is null"
  | some bytes =>
      if bytes.length < 2 then
        .error "Received less than 2 bytes while decoding an i16"
      else if 2 < bytes.length then
        .error "Received more than 2 bytes while decoding an i16"
      else (readIntBE 2 bytes).map Prod.fst

/-- `FromSql<Integer, GaussDB> for i32`. -/
def fromSql_Integer (v : Option (List Nat)) : Except String Int :=
  match v with
  | none => .error "Integer value is null"
  | some bytes =>
      if bytes.length < 4 then
        .error "Received less than 4 bytes while decoding an i32"
      else if 4 < bytes.length then
        .error "Received more than 4 bytes while decoding an i32"
      else (readIntBE 4 bytes).map Prod.fst

/-- `FromSql<BigInt, GaussDB> for i64`. -/
def fromSql_BigInt (v : Option (List Nat)) : Except String Int :=
  match v with
  | none => .error "BigInt value is null"
  | some bytes =>
      if bytes.length < 8 then
        .error "Received less than 8 bytes while decoding an i64"
      else if 8 < bytes.length then
        .error "Received more than 8 bytes while decoding an i64"
      else (readIntBE 8 bytes).map Prod.fst

/-- `FromSql<Bool, GaussDB> for bool`: `Ok(bytes[0] != 0)`. The unguarded
index `bytes[0]` panics on an empty slice; that branch is modelled as the
outer `none`. -/
def fromSql_Bool : Option (List Nat) → Option (Except String Bool)
  | none => some (.error "Bool value is null")
  | some [] => none
  | some (b :: _) => some (.ok (decide (b ≠ 0)))

/-- C1: serializing a `GaussDBTimestamp`, `GaussDBDate`, `GaussDBTime` or
`GaussDBInterval` with its `ToSql` impl and deserializing the bytes with
the matching `FromSql` impl returns the original value; `ToSql<Interval>`
writes microseconds (8 bytes), then days (4 bytes), then months (4 bytes)
in network byte order, and `FromSql<Interval>` reads them back in that
same order. -/
theorem date_time_to_sql_from_sql_roundtrip
    (t : GaussDBTimestamp) (d : GaussDBDate) (tm : GaussDBTime)
    (iv : GaussDBInterval)
    (ht : fitsSigned 8 t.microseconds) (hd : fitsSigned 4 d.julian_days)
    (htm : fitsSigned 8 tm.microseconds)
    (hm : fitsSigned 4 iv.months) (hdy : fitsSigned 4 iv.days)
    (hus : fitsSigned 8 iv.microseconds) :
    GaussDBTimestamp.from_sql (some t.to_sql) = .ok t ∧
    GaussDBTimestamp.from_sql_tz (some t.to_sql) = .ok t ∧
    GaussDBDate.from_sql (some d.to_sql) = .ok d ∧
    GaussDBTime.from_sql (some tm.to_sql) = .ok tm ∧
    GaussDBInterval.from_sql (some iv.to_sql) = .ok iv ∧
    iv.to_sql = intToBytesBE 8 iv.microseconds ++ intToBytesBE 4 iv.days ++
      intToBytesBE 4 iv.months := by
  have hts : GaussDBTimestamp.from_sql (some t.to_sql) = .ok t := by
    have hlen : t.to_sql.length = 8 := by simp [GaussDBTimestamp.to_sql, intToBytesBE]
    rw [GaussDBTimestamp.from_sql, if_neg (by omega), GaussDBTimestamp.to_sql,
      readIntBE_encode_nil 8 (by norm_num) _ ht]
    rfl
  have htz : GaussDBTimestamp.from_sql_tz (some t.to_sql) = .ok t := by
    have hlen : t.to_sql.length = 8 := by simp [GaussDBTimestamp.to_sql, intToBytesBE]
    rw [GaussDBTimestamp.from_sql_tz, if_neg (by omega), GaussDBTimestamp.to_sql,
      readIntBE_encode_nil 8 (by norm_num) _ ht]
    rfl
  have hdt : GaussDBDate.from_sql (some d.to_sql) = .ok d := by
    have hlen : d.to_sql.length = 4 := by simp [GaussDBDate.to_sql, intToBytesBE]
    rw [GaussDBDate.from_sql, if_neg (by omega), GaussDBDate.to_sql,
      readIntBE_encode_nil 4 (by norm_num) _ hd]
    rfl
  have htmv : GaussDBTime.from_sql (some tm.to_sql) = .ok tm := by
    have hlen : tm.to_sql.length = 8 := by simp [GaussDBTime.to_sql, intToBytesBE]
    rw [GaussDBTime.from_sql, if_neg (by omega), GaussDBTime.to_sql,
      readIntBE_encode_nil 8 (by norm_num) _ htm]
    rfl
  have hiv : GaussDBInterval.from_sql (some iv.to_sql) = .ok iv := by
    have hlen : iv.to_sql.length = 16 := by
      simp [GaussDBInterval.to_sql, intToBytesBE]
    have hassoc : iv.to_sql = intToBytesBE 8 iv.microseconds ++
        (intToBytesBE 4 iv.days ++ intToBytesBE 4 iv.months) := by
      rw [GaussDBInterval.to_sql, List.append_assoc]
    rw [GaussDBInterval.from_sql, if_neg (by omega), hassoc,
      readIntBE_encode 8 (by norm_num) _ hus _]
    simp only [bindOk]
    rw [readIntBE_encode 4 (by norm_num) _ hdy _]
    simp only [bindOk]
    rw [readIntBE_encode_nil 4 (by norm_num) _ hm]
    simp only [bindOk]
    rfl
  exact ⟨hts, htz, hdt, htmv, hiv, rfl⟩

theorem date_time_to_sql_from_sql_roundtrip_witness :
    GaussDBTimestamp.from_sql (some (GaussDBTimestamp.mk 123).to_sql) =
      .ok ⟨123⟩ ∧
    GaussDBTimestamp.from_sql_tz (some (GaussDBTimestamp.mk 123).to_sql) =
      .ok ⟨123⟩ ∧
    GaussDBDate.from_sql (some (GaussDBDate.mk (-5)).to_sql) = .ok ⟨-5⟩ ∧
    GaussDBTime.from_sql (some (GaussDBTime.mk 7).to_sql) = .ok ⟨7⟩ ∧
    GaussDBInterval.from_sql (some (GaussDBInterval.mk 2 (-3) 99).to_sql) =
      .ok ⟨2, -3, 99⟩ ∧
    (GaussDBInterval.mk 2 (-3) 99).to_sql = intToBytesBE 8 99 ++
      intToBytesBE 4 (-3) ++ intToBytesBE 4 2 :=
  date_time_to_sql_from_sql_roundtrip ⟨123⟩ ⟨-5⟩ ⟨7⟩ ⟨2, -3, 99⟩
    (by decide) (by decide) (by decide) (by decide) (by decide) (by decide)

/-- C2: for a non-null input, `FromSql<Integer, GaussDB>` for `i32` errors
iff the byte length differs from 4 and otherwise returns the big-endian
`i32` decoded from the 4 bytes; likewise for `i16` under `SmallInt`
(length 2) and `i64` under `BigInt` (length 8); a null input always
errors. -/
theorem integer_from_sql_spec (bs : List Nat) :
    ((∃ e, fromSql_SmallInt (some bs) = .error e) ↔ bs.length ≠ 2) ∧
    (bs.length = 2 → fromSql_SmallInt (some bs) = .ok (bytesToIntBE 2 bs)) ∧
    ((∃ e, fromSql_Integer (some bs) = .error e) ↔ bs.length ≠ 4) ∧
    (bs.length = 4 → fromSql_Integer (some bs) = .ok (bytesToIntBE 4 bs)) ∧
    ((∃ e, fromSql_BigInt (some bs) = .error e) ↔ bs.length ≠ 8) ∧
    (bs.length = 8 → fromSql_BigInt (some bs) = .ok (bytesToIntBE 8 bs)) ∧
    (∃ e, fromSql_SmallInt none = .error e) ∧
    (∃ e, fromSql_Integer none = .error e) ∧
    (∃ e, fromSql_BigInt none = .error e) := by
  have hsm : bs.length = 2 → fromSql_SmallInt (some bs) = .ok (bytesToIntBE 2 bs) := by
    intro h
    rw [fromSql_SmallInt, if_neg (by omega), if_neg (by omega), readIntBE_exact 2 bs h]
    rfl
  have hin : bs.length = 4 → fromSql_Integer (some bs) = .ok (bytesToIntBE 4 bs) := by
    intro h
    rw [fromSql_Integer, if_neg (by omega), if_neg (by omega), readIntBE_exact 4 bs h]
    rfl
  have hbi : bs.length = 8 → fromSql_BigInt (some bs) = .ok (bytesToIntBE 8 bs) := by
    intro h
    rw [fromSql_BigInt, if_neg (by omega), if_neg (by omega), readIntBE_exact 8 bs h]
    rfl
  refine ⟨⟨?_, ?_⟩, hsm, ⟨?_, ?_⟩, hin, ⟨?_, ?_⟩, hbi, ⟨_, rfl⟩, ⟨_, rfl⟩, ⟨_, rfl⟩⟩
  · rintro ⟨e, he⟩ h2
    rw [hsm h2] at he
    exact Except.noConfusion he
  · intro hne
    rcases Nat.lt_or_ge bs.length 2 with h | h
    · exact ⟨_, by rw [fromSql_SmallInt, if_pos h]⟩
    · exact ⟨_, by rw [fromSql_SmallInt, if_neg (by omega), if_pos (by omega)]⟩
  · rintro ⟨e, he⟩ h4
    rw [hin h4] at he
    exact Except.noConfusion he
  · intro hne
    rcases Nat.lt_or_ge bs.length 4 with h | h
    · exact ⟨_, by rw [fromSql_Integer, if_pos h]⟩
    · exact ⟨_, by rw [fromSql_Integer, if_neg (by omega), if_pos (by omega)]⟩
  · rintro ⟨e, he⟩ h8
    rw [hbi h8] at he
    exact Except.noConfusion he
  · intro hne
    rcases Nat.lt_or_ge bs.length 8 with h | h
    · exact ⟨_, by rw [fromSql_BigInt, if_pos h]⟩
    · exact ⟨_, by rw [fromSql_BigInt, if_neg (by omega), if_pos (by omega)]⟩

theorem integer_from_sql_spec_witness :
    ((∃ e, fromSql_SmallInt (some [1, 2, 3]) = .error e) ↔
      ([1, 2, 3] : List Nat).length ≠ 2) ∧
    (([1, 2, 3] : List Nat).length = 2 →
      fromSql_SmallInt (some [1, 2, 3]) = .ok (bytesToIntBE 2 [1, 2, 3])) ∧
    ((∃ e, fromSql_Integer (some [1, 2, 3]) = .error e) ↔
      ([1, 2, 3] : List Nat).length ≠ 4) ∧
    (([1, 2, 3] : List Nat).length = 4 →
      fromSql_Integer (some [1, 2, 3]) = .ok (bytesToIntBE 4 [1, 2, 3])) ∧
    ((∃ e, fromSql_BigInt (some [1, 2, 3]) = .error e) ↔
      ([1, 2, 3] : List Nat).length ≠ 8) ∧
    (([1, 2, 3] : List Nat).length = 8 →
      fromSql_BigInt (some [1, 2, 3]) = .ok (bytesToIntBE 8 [1, 2, 3])) ∧
    (∃ e, fromSql_SmallInt none = .error e) ∧
    (∃ e, fromSql_Integer none = .error e) ∧
    (∃ e, fromSql_BigInt none = .error e) :=
  integer_from_sql_spec [1, 2, 3]

/-- C8: for a non-null, non-empty byte slice the `bool` deserializer
returns `Ok(true)` exactly when the first byte is non-zero and
`Ok(false)` when it is zero, ignoring the remaining bytes and never
reporting a length error; the out-of-bounds access (the `none` result of
the model) is reachable only at the empty slice. -/
theorem bool_from_sql_spec (b : Nat) (rest : List Nat) :
    (b ≠ 0 → fromSql_Bool (some (b :: rest)) = some (.ok true)) ∧
    (b = 0 → fromSql_Bool (some (b :: rest)) = some (.ok false)) ∧
    (∀ rest', fromSql_Bool (some (b :: rest')) = fromSql_Bool (some (b :: rest))) ∧
    (∀ bs : List Nat, fromSql_Bool (some bs) = none ↔ bs = []) ∧
    fromSql_Bool none = some (.error "Bool value is null") := by
  refine ⟨?_, ?_, fun _ => rfl, ?_, rfl⟩
  · intro h
    simp [fromSql_Bool, h]
  · intro h
    simp [fromSql_Bool, h]
  · intro bs
    cases bs <;> simp [fromSql_Bool]

theorem bool_from_sql_spec_witness :
    ((7 : Nat) ≠ 0 → fromSql_Bool (some [7, 9]) = some (.ok true)) ∧
    ((7 : Nat) = 0 → fromSql_Bool (some [7, 9]) = some (.ok false)) ∧
    (∀ rest', fromSql_Bool (some (7 :: rest')) = fromSql_Bool (some [7, 9])) ∧
    (∀ bs : List Nat, fromSql_Bool (some bs) = none ↔ bs = []) ∧
    fromSql_Bool none = some (.error "Bool value is null") :=
  bool_from_sql_spec 7 [9]

/-! ## `src/performance.rs`: the TTL/LRU query cache

`Instant` is modelled as a `Nat` timestamp passed explicitly to each
operation (`elapsed()` becomes `now - created_at`), and the `HashMap` as
an association list. -/

/-- `struct CachedQuery` of `performance.rs`. -/
structure CachedQuery where
  sql : String
  created_at : Nat
  hit_count : Nat
  last_accessed : Nat
  deriving DecidableEq, Repr

/-- The `HashMap<String, CachedQuery>` behind the mutex. -/
abbrev Cache := List (String × CachedQuery)

/-- The configuration part of `struct QueryCache`. -/
structure QueryCache where
  max_size : Nat
  ttl : Nat
  deriving DecidableEq, Repr

/-- `QueryCache::get`: on a hit whose age is below the TTL, bump
`hit_count`, refresh `last_accessed` and return the SQL; on an expired
hit remove the entry; otherwise return `None`. -/
def QueryCache.get (qc : QueryCache) (m : Cache) (key : String) (now : Nat) :
    Option String × Cache :=
  match m.find? (fun p => p.1 == key) with
  | some p =>
      if now - p.2.created_at < qc.ttl then
        (some p.2.sql,
          m.map fun q =>
            if q.1 == key then
              (q.1, { q.2 with hit_count := q.2.hit_count + 1, last_accessed := now })
            else q)
      else
        (none, m.filter fun q => !(q.1 == key))
  | none => (none, m)

/-- `QueryCache::cleanup_expired`: retain entries with
`now.duration_since(created_at) < ttl`. -/
def QueryCache.cleanup_expired (qc : QueryCache) (m : Cache) (now : Nat) : Cache :=
  m.filter fun p => decide (now - p.2.created_at < qc.ttl)

/-- The `iter().min_by_key(|(_, q)| q.last_accessed)` step of
`QueryCache::evict_lru`: the first entry with minimal `last_accessed`. -/
def minByLastAccessed : Cache → Option (String × CachedQuery)
  | [] => none
  | x :: xs =>
      some (xs.foldl
        (fun best p => if p.2.last_accessed < best.2.last_accessed then p else best) x)

/-- `QueryCache::evict_lru`: remove the least-recently-accessed entry. -/
def QueryCache.evict_lru (m : Cache) : Cache :=
  match minByLastAccessed m with
  | none => m
  | some p => m.eraseP fun q => q.1 == p.1

/-- `HashMap::insert`: replace the value under an existing key, else add
the binding. -/
def cacheInsert (m : Cache) (key : String) (q : CachedQuery) : Cache :=
  if m.any (fun p => p.1 == key) then
    m.map fun p => if p.1 == key then (key, q) else p
  else m ++ [(key, q)]

/-- `QueryCache::put`: drop expired entries, evict the LRU entry when the
cache is still at or above capacity, then insert the fresh entry. -/
def QueryCache.put (qc : QueryCache) (m : Cache) (key sql : String) (now : Nat) :
    Cache :=
  let m1 := qc.cleanup_expired m now
  let m2 := if qc.max_size ≤ m1.length then QueryCache.evict_lru m1 else m1
  cacheInsert m2 key ⟨sql, now, 0, now⟩

/-- A client-visible cache operation, paired with the instant at which it
runs. -/
inductive CacheOp where
  | putOp (key sql : String)
  | getOp (key : String)
  deriving DecidableEq, Repr

def QueryCache.step (qc : QueryCache) (m : Cache) : CacheOp × Nat → Cache
  | (.putOp k s, t) => qc.put m k s t
  | (.getOp k, t) => (qc.get m k t).2

/-- Run a sequence of timed cache operations from the empty cache. -/
def QueryCache.run (qc : QueryCache) (ops : List (CacheOp × Nat)) : Cache :=
  ops.foldl (qc.step) []

/-- C3: `QueryCache::get` returns `Some` of the stored SQL exactly when
the key holds an entry (created by a `put`) whose age is strictly below
the TTL; an entry at or past the TTL is removed and `None` is returned;
a key with no entry yields `None` and leaves the cache unchanged. -/
theorem query_cache_get_spec (qc : QueryCache) (m : Cache) (key : String)
    (now : Nat) :
    (∀ p, m.find? (fun q => q.1 == key) = some p →
      (now - p.2.created_at < qc.ttl → (qc.get m key now).1 = some p.2.sql) ∧
      (qc.ttl ≤ now - p.2.created_at →
        qc.get m key now = (none, m.filter fun q => !(q.1 == key)))) ∧
    (m.find? (fun q => q.1 == key) = none → qc.get m key now = (none, m)) ∧
    ((qc.get m key now).1.isSome = true ↔
      ∃ p, m.find? (fun q => q.1 == key) = some p ∧
        now - p.2.created_at < qc.ttl) := by
  cases hf : m.find? (fun q => q.1 == key) with
  | none =>
      refine ⟨fun p hp => Option.noConfusion hp, fun _ => ?_, ?_⟩
      · simp only [QueryCache.get, hf]
      · simp only [QueryCache.get, hf]
        simp
  | some p =>
      by_cases htime : now - p.2.created_at < qc.ttl
      · refine ⟨?_, fun h => Option.noConfusion h, ?_⟩
        · rintro p' hp'
          injection hp' with h
          subst h
          refine ⟨fun _ => ?_, fun hge => absurd htime (by omega)⟩
          simp only [QueryCache.get, hf, if_pos htime]
        · simp only [QueryCache.get, hf, if_pos htime, Option.isSome_some,
            true_iff]
          exact ⟨p, rfl, htime⟩
      · refine ⟨?_, fun h => Option.noConfusion h, ?_⟩
        · rintro p' hp'
          injection hp' with h
          subst h
          refine ⟨fun hlt => absurd hlt htime, fun _ => ?_⟩
          simp only [QueryCache.get, hf, if_neg htime]
        · simp only [QueryCache.get, hf, if_neg htime, Option.isSome_none]
          refine ⟨fun h => absurd h (by simp), ?_⟩
          rintro ⟨p', hp', hlt⟩
          injection hp' with h
          subst h
          exact absurd hlt htime

theorem query_cache_get_spec_witness :
    (∀ p, ([(("k", CachedQuery.mk "SELECT 1" 0 0 0))] : Cache).find?
        (fun q => q.1 == "k") = some p →
      ((3 : Nat) - p.2.created_at < (5 : Nat) →
        ((QueryCache.mk 4 5).get [("k", ⟨"SELECT 1", 0, 0, 0⟩)] "k" 3).1 =
          some p.2.sql) ∧
      ((5 : Nat) ≤ 3 - p.2.created_at →
        (QueryCache.mk 4 5).get [("k", ⟨"SELECT 1", 0, 0, 0⟩)] "k" 3 =
          (none, ([(("k", CachedQuery.mk "SELECT 1" 0 0 0))] : Cache).filter
            fun q => !(q.1 == "k")))) ∧
    (([(("k", CachedQuery.mk "SELECT 1" 0 0 0))] : Cache).find?
        (fun q => q.1 == "k") = none →
      (QueryCache.mk 4 5).get [("k", ⟨"SELECT 1", 0, 0, 0⟩)] "k" 3 =
        (none, [("k", ⟨"SELECT 1", 0, 0, 0⟩)])) ∧
    (((QueryCache.mk 4 5).get [("k", ⟨"SELECT 1", 0, 0, 0⟩)] "k" 3).1.isSome =
        true ↔
      ∃ p, ([(("k", CachedQuery.mk "SELECT 1" 0 0 0))] : Cache).find?
          (fun q => q.1 == "k") = some p ∧ 3 - p.2.created_at < 5) :=
  query_cache_get_spec ⟨4, 5⟩ [("k", ⟨"SELECT 1", 0, 0, 0⟩)] "k" 3

theorem foldlMin_mem (xs : Cache) (x : String × CachedQuery) :
    xs.foldl
      (fun best p => if p.2.last_accessed < best.2.last_accessed then p else best)
      x ∈ x :: xs := by
  induction xs generalizing x with
  | nil => simp
  | cons a xs ih =>
      simp only [List.foldl_cons]
      rcases List.mem_cons.mp
          (ih (if a.2.last_accessed < x.2.last_accessed then a else x)) with h | h
      · rw [h]
        split
        · exact List.mem_cons_of_mem _ (List.mem_cons_self _ _)
        · exact List.mem_cons_self _ _
      · exact List.mem_cons_of_mem _ (List.mem_cons_of_mem _ h)

theorem foldlMin_le (xs : Cache) (x : String × CachedQuery) :
    ∀ q ∈ x :: xs,
      (xs.foldl
        (fun best p => if p.2.last_accessed < best.2.last_accessed then p else best)
        x).2.last_accessed ≤ q.2.last_accessed := by
  induction xs generalizing x with
  | nil =>
      intro q hq
      rcases List.mem_cons.mp hq with h | h
      · subst h
        simp
      · cases h
  | cons a xs ih =>
      intro q hq
      simp only [List.foldl_cons]
      have hyx : (if a.2.last_accessed < x.2.last_accessed then a
            else x).2.last_accessed ≤ x.2.last_accessed ∧
          (if a.2.last_accessed < x.2.last_accessed then a
            else x).2.last_accessed ≤ a.2.last_accessed := by
        split <;> omega
      have hhead := ih (if a.2.last_accessed < x.2.last_accessed then a else x)
        _ (List.mem_cons_self _ _)
      rcases List.mem_cons.mp hq with h | h
      · rw [h]
        omega
      · rcases List.mem_cons.mp h with h' | h'
        · rw [h']
          omega
        · exact ih _ q (List.mem_cons_of_mem _ h')

theorem minByLastAccessed_spec (m : Cache) (hne : m ≠ []) :
    ∃ p, minByLastAccessed m = some p ∧ p ∈ m ∧
      ∀ q ∈ m, p.2.last_accessed ≤ q.2.last_accessed := by
  cases m with
  | nil => exact absurd rfl hne
  | cons x xs => exact ⟨_, rfl, foldlMin_mem xs x, foldlMin_le xs x⟩

theorem cacheInsert_length (m : Cache) (k : String) (q : CachedQuery) :
    (cacheInsert m k q).length ≤ m.length + 1 := by
  rw [cacheInsert]
  split
  · rw [List.length_map]
    omega
  · rw [List.length_append]
    simp

theorem evict_lru_length (m : Cache) (hne : m ≠ []) :
    (QueryCache.evict_lru m).length + 1 = m.length := by
  obtain ⟨p, hmin, hmem, _⟩ := minByLastAccessed_spec m hne
  rw [QueryCache.evict_lru, hmin]
  exact List.length_eraseP_add_one hmem (by simp)

theorem put_length (qc : QueryCache) (h1 : 1 ≤ qc.max_size) (m : Cache)
    (k s : String) (now : Nat) (hm : m.length ≤ qc.max_size) :
    (qc.put m k s now).length ≤ qc.max_size := by
  have hclean : (qc.cleanup_expired m now).length ≤ m.length :=
    List.length_filter_le _ m
  rw [QueryCache.put]
  by_cases hfull : qc.max_size ≤ (qc.cleanup_expired m now).length
  · have hne : qc.cleanup_expired m now ≠ [] := by
      intro h
      rw [h] at hfull
      simp at hfull
      omega
    have := evict_lru_length (qc.cleanup_expired m now) hne
    have := cacheInsert_length (QueryCache.evict_lru (qc.cleanup_expired m now))
      k ⟨s, now, 0, now⟩
    simp only [if_pos hfull]
    omega
  · have := cacheInsert_length (qc.cleanup_expired m now) k ⟨s, now, 0, now⟩
    simp only [if_neg hfull]
    omega

theorem get_length (qc : QueryCache) (m : Cache) (k : String) (now : Nat) :
    ((qc.get m k now).2).length ≤ m.length := by
  rw [QueryCache.get]
  cases m.find? (fun p => p.1 == k) with
  | none => simp
  | some p =>
      by_cases htime : now - p.2.created_at < qc.ttl
      · simp [htime]
      · simp only [if_neg htime]
        exact List.length_filter_le _ m

/-- C4 (amended: the capacity bound requires `max_size ≥ 1`): from the
empty cache, every sequence of timed `put`/`get` operations keeps the
entry count at or below `max_size`; and whenever a `put` still finds the
cleaned cache at or above capacity, it evicts an entry with minimal
`last_accessed` from the cleaned cache before inserting the new entry. -/
theorem query_cache_capacity_spec (qc : QueryCache) (h1 : 1 ≤ qc.max_size) :
    (∀ ops : List (CacheOp × Nat), (qc.run ops).length ≤ qc.max_size) ∧
    (∀ (m : Cache) (key sql : String) (now : Nat),
      qc.max_size ≤ (qc.cleanup_expired m now).length →
      ∃ p, p ∈ qc.cleanup_expired m now ∧
        (∀ q ∈ qc.cleanup_expired m now,
          p.2.last_accessed ≤ q.2.last_accessed) ∧
        qc.put m key sql now =
          cacheInsert ((qc.cleanup_expired m now).eraseP fun q => q.1 == p.1)
            key ⟨sql, now, 0, now⟩) := by
  constructor
  · intro ops
    rw [QueryCache.run]
    have : ∀ (l : List (CacheOp × Nat)) (m : Cache), m.length ≤ qc.max_size →
        (l.foldl qc.step m).length ≤ qc.max_size := by
      intro l
      induction l with
      | nil => intro m hm; exact hm
      | cons op l ih =>
          intro m hm
          rw [List.foldl_cons]
          apply ih
          obtain ⟨o, t⟩ := op
          cases o with
          | putOp k s => exact put_length qc h1 m k s t hm
          | getOp k => exact le_trans (get_length qc m k t) hm
    exact this ops [] (by simp)
  · intro m key sql now hfull
    have hne : qc.cleanup_expired m now ≠ [] := by
      intro h
      rw [h] at hfull
      simp at hfull
      omega
    obtain ⟨p, hmin, hmem, hle⟩ := minByLastAccessed_spec _ hne
    refine ⟨p, hmem, hle, ?_⟩
    rw [QueryCache.put]
    simp only [if_pos hfull]
    rw [QueryCache.evict_lru, hmin]

/-- C4, the claim as stated is false at `max_size = 0`: a `put` into a
fresh zero-capacity cache stores one entry, exceeding `max_size`. -/
theorem query_cache_capacity_counterexample :
    ¬ ((QueryCache.mk 0 5).run [(CacheOp.putOp "a" "x", 0)]).length ≤
      (QueryCache.mk 0 5).max_size := by
  decide

theorem query_cache_capacity_spec_witness :
    1 ≤ (QueryCache.mk 1 5).max_size ∧
    ((∀ ops : List (CacheOp × Nat),
      ((QueryCache.mk 1 5).run ops).length ≤ (QueryCache.mk 1 5).max_size) ∧
    (∀ (m : Cache) (key sql : String) (now : Nat),
      (QueryCache.mk 1 5).max_size ≤
        ((QueryCache.mk 1 5).cleanup_expired m now).length →
      ∃ p, p ∈ (QueryCache.mk 1 5).cleanup_expired m now ∧
        (∀ q ∈ (QueryCache.mk 1 5).cleanup_expired m now,
          p.2.last_accessed ≤ q.2.last_accessed) ∧
        (QueryCache.mk 1 5).put m key sql now =
          cacheInsert
            (((QueryCache.mk 1 5).cleanup_expired m now).eraseP
              fun q => q.1 == p.1)
            key ⟨sql, now, 0, now⟩)) :=
  ⟨by decide, query_cache_capacity_spec ⟨1, 5⟩ (by decide)⟩

/-! ## `src/monitoring.rs`: metric counters and the health check

The eight `AtomicU64` counters are modelled as `Nat` fields reduced
modulo `2 ^ 64` (the wrapping `fetch_add`); `Duration` is its number of
microseconds; the `f64` rates are modelled as exact rationals. -/

/-- The counters of `struct GaussDBMetrics`. -/
structure GaussDBMetrics where
  connections_established : Nat
  connection_failures : Nat
  queries_executed : Nat
  query_failures : Nat
  total_query_time_us : Nat
  transactions_started : Nat
  transactions_committed : Nat
  transactions_rolled_back : Nat
  deriving DecidableEq, Repr

/-- `AtomicU64::fetch_add` wraps at `2 ^ 64`. -/
def u64add (a b : Nat) : Nat := (a + b) % 2 ^ 64

def GaussDBMetrics.record_connection_success (m : GaussDBMetrics) : GaussDBMetrics :=
  { m with connections_established := u64add m.connections_established 1 }

def GaussDBMetrics.record_connection_failure (m : GaussDBMetrics) : GaussDBMetrics :=
  { m with connection_failures := u64add m.connection_failures 1 }

/-- `record_query_success` also adds the duration, in microseconds
truncated to `u64`, to `total_query_time_us`. -/
def GaussDBMetrics.record_query_success (m : GaussDBMetrics) (micros : Nat) :
    GaussDBMetrics :=
  { m with
    queries_executed := u64add m.queries_executed 1,
    total_query_time_us := u64add m.total_query_time_us (micros % 2 ^ 64) }

def GaussDBMetrics.record_query_failure (m : GaussDBMetrics) : GaussDBMetrics :=
  { m with query_failures := u64add m.query_failures 1 }

def GaussDBMetrics.record_transaction_start (m : GaussDBMetrics) : GaussDBMetrics :=
  { m with transactions_started := u64add m.transactions_started 1 }

def GaussDBMetrics.record_transaction_commit (m : GaussDBMetrics) : GaussDBMetrics :=
  { m with transactions_committed := u64add m.transactions_committed 1 }

def GaussDBMetrics.record_transaction_rollback (m : GaussDBMetrics) : GaussDBMetrics :=
  { m with transactions_rolled_back := u64add m.transactions_rolled_back 1 }

/-- `GaussDBMetrics::connection_success_rate` (exact-rational model of the
`f64` division). -/
def GaussDBMetrics.connection_success_rate (m : GaussDBMetrics) : Rat :=
  let total := m.connections_established + m.connection_failures
  if 0 < total then (m.connections_established : Rat) / (total : Rat) else 0

/-- `GaussDBMetrics::query_success_rate`. -/
def GaussDBMetrics.query_success_rate (m : GaussDBMetrics) : Rat :=
  let total := m.queries_executed + m.query_failures
  if 0 < total then (m.queries_executed : Rat) / (total : Rat) else 0

/-- `GaussDBMetrics::average_query_time_us`. -/
def GaussDBMetrics.average_query_time_us (m : GaussDBMetrics) : Rat :=
  if 0 < m.queries_executed then
    (m.total_query_time_us : Rat) / (m.queries_executed : Rat)
  else 0

inductive HealthStatus where
  | healthy
  | degraded
  | unhealthy
  deriving DecidableEq, Repr

/-- The status/message part of `struct HealthCheck` (timestamp and the
string-formatted detail map carry no logic and are elided). -/
structure HealthCheck where
  status : HealthStatus
  message : String
  deriving DecidableEq, Repr

/-- `perform_health_check`, applied to the metrics state it reads. -/
def perform_health_check (m : GaussDBMetrics) : HealthCheck :=
  if m.connection_success_rate < (4 / 5 : Rat) ∧ 10 < m.connections_established then
    ⟨.degraded, "Low connection success rate"⟩
  else if m.query_success_rate < (9 / 10 : Rat) ∧ 100 < m.queries_executed then
    ⟨.degraded, "Low query success rate"⟩
  else if (10000 : Rat) < m.average_query_time_us ∧ 10 < m.queries_executed then
    ⟨.degraded, "High average query time"⟩
  else ⟨.healthy, "All systems operational"⟩

/-- C7: each `record_*` operation changes only its own counter(s) —
adding 1 (wrapping, as `fetch_add` does) to its counter and, for
`record_query_success`, the duration in microseconds to
`total_query_time_us` — and leaves every other counter unchanged. -/
theorem metrics_record_frame (m : GaussDBMetrics) (micros : Nat) :
    (m.record_connection_success.connections_established =
        u64add m.connections_established 1 ∧
      m.record_connection_success.connection_failures = m.connection_failures ∧
      m.record_connection_success.queries_executed = m.queries_executed ∧
      m.record_connection_success.query_failures = m.query_failures ∧
      m.record_connection_success.total_query_time_us = m.total_query_time_us ∧
      m.record_connection_success.transactions_started = m.transactions_started ∧
      m.record_connection_success.transactions_committed = m.transactions_committed ∧
      m.record_connection_success.transactions_rolled_back = m.transactions_rolled_back) ∧
    (m.record_connection_failure.connection_failures =
        u64add m.connection_failures 1 ∧
      m.record_connection_failure.connections_established = m.connections_established ∧
      m.record_connection_failure.queries_executed = m.queries_executed ∧
      m.record_connection_failure.query_failures = m.query_failures ∧
      m.record_connection_failure.total_query_time_us = m.total_query_time_us ∧
      m.record_connection_failure.transactions_started = m.transactions_started ∧
      m.record_connection_failure.transactions_committed = m.transactions_committed ∧
      m.record_connection_failure.transactions_rolled_back = m.transactions_rolled_back) ∧
    ((m.record_query_success micros).queries_executed =
        u64add m.queries_executed 1 ∧
      (m.record_query_success micros).total_query_time_us =
        u64add m.total_query_time_us (micros % 2 ^ 64) ∧
      (m.record_query_success micros).connections_established = m.connections_established ∧
      (m.record_query_success micros).connection_failures = m.connection_failures ∧
      (m.record_query_success micros).query_failures = m.query_failures ∧
      (m.record_query_success micros).transactions_started = m.transactions_started ∧
      (m.record_query_success micros).transactions_committed = m.transactions_committed ∧
      (m.record_query_success micros).transactions_rolled_back = m.transactions_rolled_back) ∧
    (m.record_query_failure.query_failures = u64add m.query_failures 1 ∧
      m.record_query_failure.connections_established = m.connections_established ∧
      m.record_query_failure.connection_failures = m.connection_failures ∧
      m.record_query_failure.queries_executed = m.queries_executed ∧
      m.record_query_failure.total_query_time_us = m.total_query_time_us ∧
      m.record_query_failure.transactions_started = m.transactions_started ∧
      m.record_query_failure.transactions_committed = m.transactions_committed ∧
      m.record_query_failure.transactions_rolled_back = m.transactions_rolled_back) ∧
    (m.record_transaction_start.transactions_started =
        u64add m.transactions_started 1 ∧
      m.record_transaction_start.connections_established = m.connections_established ∧
      m.record_transaction_start.connection_failures = m.connection_failures ∧
      m.record_transaction_start.queries_executed = m.queries_executed ∧
      m.record_transaction_start.query_failures = m.query_failures ∧
      m.record_transaction_start.total_query_time_us = m.total_query_time_us ∧
      m.record_transaction_start.transactions_committed = m.transactions_committed ∧
      m.record_transaction_start.transactions_rolled_back = m.transactions_rolled_back) ∧
    (m.record_transaction_commit.transactions_committed =
        u64add m.transactions_committed 1 ∧
      m.record_transaction_commit.connections_established = m.connections_established ∧
      m.record_transaction_commit.connection_failures = m.connection_failures ∧
      m.record_transaction_commit.queries_executed = m.queries_executed ∧
      m.record_transaction_commit.query_failures = m.query_failures ∧
      m.record_transaction_commit.total_query_time_us = m.total_query_time_us ∧
      m.record_transaction_commit.transactions_started = m.transactions_started ∧
      m.record_transaction_commit.transactions_rolled_back = m.transactions_rolled_back) ∧
    (m.record_transaction_rollback.transactions_rolled_back =
        u64add m.transactions_rolled_back 1 ∧
      m.record_transaction_rollback.connections_established = m.connections_established ∧
      m.record_transaction_rollback.connection_failures = m.connection_failures ∧
      m.record_transaction_rollback.queries_executed = m.queries_executed ∧
      m.record_transaction_rollback.query_failures = m.query_failures ∧
      m.record_transaction_rollback.total_query_time_us = m.total_query_time_us ∧
      m.record_transaction_rollback.transactions_started = m.transactions_started ∧
      m.record_transaction_rollback.transactions_committed = m.transactions_committed) := by
  repeat' apply And.intro
  all_goals rfl

theorem metrics_record_frame_witness :
    ((GaussDBMetrics.mk 1 2 3 4 5 6 7 8).record_connection_success.connections_established =
      u64add 1 1 ∧
      (GaussDBMetrics.mk 1 2 3 4 5 6 7 8).record_connection_success.connection_failures = 2 ∧
      (GaussDBMetrics.mk 1 2 3 4 5 6 7 8).record_connection_success.queries_executed = 3 ∧
      (GaussDBMetrics.mk 1 2 3 4 5 6 7 8).record_connection_success.query_failures = 4 ∧
      (GaussDBMetrics.mk 1 2 3 4 5 6 7 8).record_connection_success.total_query_time_us = 5 ∧
      (GaussDBMetrics.mk 1 2 3 4 5 6 7 8).record_connection_success.transactions_started = 6 ∧
      (GaussDBMetrics.mk 1 2 3 4 5 6 7 8).record_connection_success.transactions_committed = 7 ∧
      (GaussDBMetrics.mk 1 2 3 4 5 6 7 8).record_connection_success.transactions_rolled_back = 8) ∧
    ((GaussDBMetrics.mk 1 2 3 4 5 6 7 8).record_connection_failure.connection_failures =
      u64add 2 1 ∧
      (GaussDBMetrics.mk 1 2 3 4 5 6 7 8).record_connection_failure.connections_established = 1 ∧
      (GaussDBMetrics.mk 1 2 3 4 5 6 7 8).record_connection_failure.queries_executed = 3 ∧
      (GaussDBMetrics.mk 1 2 3 4 5 6 7 8).record_connection_failure.query_failures = 4 ∧
      (GaussDBMetrics.mk 1 2 3 4 5 6 7 8).record_connection_failure.total_query_time_us = 5 ∧
      (GaussDBMetrics.mk 1 2 3 4 5 6 7 8).record_connection_failure.transactions_started = 6 ∧
      (GaussDBMetrics.mk 1 2 3 4 5 6 7 8).record_connection_failure.transactions_committed = 7 ∧
      (GaussDBMetrics.mk 1 2 3 4 5 6 7 8).record_connection_failure.transactions_rolled_back = 8) ∧
    (((GaussDBMetrics.mk 1 2 3 4 5 6 7 8).record_query_success 90).queries_executed =
      u64add 3 1 ∧
      ((GaussDBMetrics.mk 1 2 3 4 5 6 7 8).record_query_success 90).total_query_time_us =
        u64add 5 (90 % 2 ^ 64) ∧
      ((GaussDBMetrics.mk 1 2 3 4 5 6 7 8).record_query_success 90).connections_established = 1 ∧
      ((GaussDBMetrics.mk 1 2 3 4 5 6 7 8).record_query_success 90).connection_failures = 2 ∧
      ((GaussDBMetrics.mk 1 2 3 4 5 6 7 8).record_query_success 90).query_failures = 4 ∧
      ((GaussDBMetrics.mk 1 2 3 4 5 6 7 8).record_query_success 90).transactions_started = 6 ∧
      ((GaussDBMetrics.mk 1 2 3 4 5 6 7 8).record_query_success 90).transactions_committed = 7 ∧
      ((GaussDBMetrics.mk 1 2 3 4 5 6 7 8).record_query_success 90).transactions_rolled_back = 8) ∧
    ((GaussDBMetrics.mk 1 2 3 4 5 6 7 8).record_query_failure.query_failures = u64add 4 1 ∧
      (GaussDBMetrics.mk 1 2 3 4 5 6 7 8).record_query_failure.connections_established = 1 ∧
      (GaussDBMetrics.mk 1 2 3 4 5 6 7 8).record_query_failure.connection_failures = 2 ∧
      (GaussDBMetrics.mk 1 2 3 4 5 6 7 8).record_query_failure.queries_executed = 3 ∧
      (GaussDBMetrics.mk 1 2 3 4 5 6 7 8).record_query_failure.total_query_time_us = 5 ∧
      (GaussDBMetrics.mk 1 2 3 4 5 6 7 8).record_query_failure.transactions_started = 6 ∧
      (GaussDBMetrics.mk 1 2 3 4 5 6 7 8).record_query_failure.transactions_committed = 7 ∧
      (GaussDBMetrics.mk 1 2 3 4 5 6 7 8).record_query_failure.transactions_rolled_back = 8) ∧
    ((GaussDBMetrics.mk 1 2 3 4 5 6 7 8).record_transaction_start.transactions_started =
      u64add 6 1 ∧
      (GaussDBMetrics.mk 1 2 3 4 5 6 7 8).record_transaction_start.connections_established = 1 ∧
      (GaussDBMetrics.mk 1 2 3 4 5 6 7 8).record_transaction_start.connection_failures = 2 ∧
      (GaussDBMetrics.mk 1 2 3 4 5 6 7 8).record_transaction_start.queries_executed = 3 ∧
      (GaussDBMetrics.mk 1 2 3 4 5 6 7 8).record_transaction_start.query_failures = 4 ∧
      (GaussDBMetrics.mk 1 2 3 4 5 6 7 8).record_transaction_start.total_query_time_us = 5 ∧
      (GaussDBMetrics.mk 1 2 3 4 5 6 7 8).record_transaction_start.transactions_committed = 7 ∧
      (GaussDBMetrics.mk 1 2 3 4 5 6 7 8).record_transaction_start.transactions_rolled_back = 8) ∧
    ((GaussDBMetrics.mk 1 2 3 4 5 6 7 8).record_transaction_commit.transactions_committed =
      u64add 7 1 ∧
      (GaussDBMetrics.mk 1 2 3 4 5 6 7 8).record_transaction_commit.connections_established = 1 ∧
      (GaussDBMetrics.mk 1 2 3 4 5 6 7 8).record_transaction_commit.connection_failures = 2 ∧
      (GaussDBMetrics.mk 1 2 3 4 5 6 7 8).record_transaction_commit.queries_executed = 3 ∧
      (GaussDBMetrics.mk 1 2 3 4 5 6 7 8).record_transaction_commit.query_failures = 4 ∧
      (GaussDBMetrics.mk 1 2 3 4 5 6 7 8).record_transaction_commit.total_query_time_us = 5 ∧
      (GaussDBMetrics.mk 1 2 3 4 5 6 7 8).record_transaction_commit.transactions_started = 6 ∧
      (GaussDBMetrics.mk 1 2 3 4 5 6 7 8).record_transaction_commit.transactions_rolled_back = 8) ∧
    ((GaussDBMetrics.mk 1 2 3 4 5 6 7 8).record_transaction_rollback.transactions_rolled_back =
      u64add 8 1 ∧
      (GaussDBMetrics.mk 1 2 3 4 5 6 7 8).record_transaction_rollback.connections_established = 1 ∧
      (GaussDBMetrics.mk 1 2 3 4 5 6 7 8).record_transaction_rollback.connection_failures = 2 ∧
      (GaussDBMetrics.mk 1 2 3 4 5 6 7 8).record_transaction_rollback.queries_executed = 3 ∧
      (GaussDBMetrics.mk 1 2 3 4 5 6 7 8).record_transaction_rollback.query_failures = 4 ∧
      (GaussDBMetrics.mk 1 2 3 4 5 6 7 8).record_transaction_rollback.total_query_time_us = 5 ∧
      (GaussDBMetrics.mk 1 2 3 4 5 6 7 8).record_transaction_rollback.transactions_started = 6 ∧
      (GaussDBMetrics.mk 1 2 3 4 5 6 7 8).record_transaction_rollback.transactions_committed = 7) :=
  metrics_record_frame ⟨1, 2, 3, 4, 5, 6, 7, 8⟩ 90

/-- C9: `perform_health_check` never returns `Unhealthy`; the status is
`Degraded` exactly when one of the three guard conditions holds —
connection success rate below 0.8 with more than 10 connections, query
success rate below 0.9 with more than 100 queries, or average query time
above 10000 µs with more than 10 queries — the first matching guard (in
that order) choosing the message. -/
theorem health_check_spec (m : GaussDBMetrics) :
    (perform_health_check m).status ≠ .unhealthy ∧
    ((perform_health_check m).status = .healthy ∨
      (perform_health_check m).status = .degraded) ∧
    ((perform_health_check m).status = .degraded ↔
      ((m.connection_success_rate < (4 / 5 : Rat) ∧
          10 < m.connections_established) ∨
        (m.query_success_rate < (9 / 10 : Rat) ∧ 100 < m.queries_executed) ∨
        ((10000 : Rat) < m.average_query_time_us ∧
          10 < m.queries_executed))) ∧
    (m.connection_success_rate < (4 / 5 : Rat) ∧ 10 < m.connections_established →
      (perform_health_check m).message = "Low connection success rate") ∧
    (¬(m.connection_success_rate < (4 / 5 : Rat) ∧
        10 < m.connections_established) →
      (m.query_success_rate < (9 / 10 : Rat) ∧ 100 < m.queries_executed) →
      (perform_health_check m).message = "Low query success rate") := by
  rw [perform_health_check]
  split_ifs with h1 h2 h3 <;> simp_all

theorem health_check_spec_witness :
    (perform_health_check ⟨0, 0, 0, 0, 0, 0, 0, 0⟩).status ≠ .unhealthy ∧
    ((perform_health_check ⟨0, 0, 0, 0, 0, 0, 0, 0⟩).status = .healthy ∨
      (perform_health_check ⟨0, 0, 0, 0, 0, 0, 0, 0⟩).status = .degraded) ∧
    ((perform_health_check ⟨0, 0, 0, 0, 0, 0, 0, 0⟩).status = .degraded ↔
      (((GaussDBMetrics.mk 0 0 0 0 0 0 0 0).connection_success_rate <
          (4 / 5 : Rat) ∧ (10 : Nat) < 0) ∨
        ((GaussDBMetrics.mk 0 0 0 0 0 0 0 0).query_success_rate <
          (9 / 10 : Rat) ∧ (100 : Nat) < 0) ∨
        ((10000 : Rat) <
            (GaussDBMetrics.mk 0 0 0 0 0 0 0 0).average_query_time_us ∧
          (10 : Nat) < 0))) ∧
    ((GaussDBMetrics.mk 0 0 0 0 0 0 0 0).connection_success_rate <
        (4 / 5 : Rat) ∧ (10 : Nat) < 0 →
      (perform_health_check ⟨0, 0, 0, 0, 0, 0, 0, 0⟩).message =
        "Low connection success rate") ∧
    (¬((GaussDBMetrics.mk 0 0 0 0 0 0 0 0).connection_success_rate <
        (4 / 5 : Rat) ∧ (10 : Nat) < 0) →
      ((GaussDBMetrics.mk 0 0 0 0 0 0 0 0).query_success_rate <
        (9 / 10 : Rat) ∧ (100 : Nat) < 0) →
      (perform_health_check ⟨0, 0, 0, 0, 0, 0, 0, 0⟩).message =
        "Low query success rate") :=
  health_check_spec ⟨0, 0, 0, 0, 0, 0, 0, 0⟩

/-! ## `src/query_builder`: SQL fragment emitters

A `QueryFragment`'s `walk_ast` over an `AstPass` is modelled by its
result: the SQL text pushed on success, or the `QueryResult` error
(`Except String String`). Sequencing two fragments concatenates their
texts, failing as soon as one fails. -/

/-- The walk result of an arbitrary inner `QueryFragment`. -/
abbrev Fragment := Except String String

/-- `QueryFragment<GaussDB> for ReturningClause<T>`
(`returning.rs`): push `" RETURNING "`, then walk the inner expression,
then return. -/
def ReturningClause.walk_ast (inner : Fragment) : Fragment :=
  match inner with
  | .ok e => .ok (" RETURNING " ++ e)
  | .error err => .error err

/-- C5: walking a `ReturningClause` yields exactly `" RETURNING "`
followed by the inner expression's SQL, with nothing after it, and it
succeeds exactly when walking the inner fragment succeeds (propagating
its error otherwise). -/
theorem returning_clause_spec (inner : Fragment) :
    (∀ e, inner = .ok e →
      ReturningClause.walk_ast inner = .ok (" RETURNING " ++ e)) ∧
    (∀ err, inner = .error err →
      ReturningClause.walk_ast inner = .error err) ∧
    ((∃ r, ReturningClause.walk_ast inner = .ok r) ↔ ∃ e, inner = .ok e) := by
  cases inner <;> simp [ReturningClause.walk_ast]

theorem returning_clause_spec_witness :
    (∀ e, (Except.ok "id, name" : Fragment) = .ok e →
      ReturningClause.walk_ast (.ok "id, name") = .ok (" RETURNING " ++ e)) ∧
    (∀ err, (Except.ok "id, name" : Fragment) = .error err →
      ReturningClause.walk_ast (.ok "id, name") = .error err) ∧
    ((∃ r, ReturningClause.walk_ast (.ok "id, name") = .ok r) ↔
      ∃ e, (Except.ok "id, name" : Fragment) = .ok e) :=
  returning_clause_spec (.ok "id, name")

/-- `LimitOffsetClause` (`limit_offset_impl.rs`), each part given by its
walk result. -/
structure LimitOffsetClause where
  limit_clause : Fragment
  offset_clause : Fragment

/-- Diesel's `BoxedLimitOffsetClause` for the GaussDB backend. -/
structure BoxedLimitOffsetClause where
  limit : Option Fragment
  offset : Option Fragment

/-- `QueryFragment<GaussDB> for LimitOffsetClause<L, O>`: walk the limit
clause, then the offset clause. -/
def LimitOffsetClause.walk_ast (c : LimitOffsetClause) : Fragment :=
  match c.limit_clause with
  | .error e => .error e
  | .ok l =>
      match c.offset_clause with
      | .error e => .error e
      | .ok o => .ok (l ++ o)

/-- The `if let Some(..)` walks in the boxed impl: an absent part pushes
nothing. -/
def walkOpt : Option Fragment → Fragment
  | none => .ok ""
  | some f => f

/-- `QueryFragment<GaussDB> for BoxedLimitOffsetClause<'_, GaussDB>`. -/
def BoxedLimitOffsetClause.walk_ast (b : BoxedLimitOffsetClause) : Fragment :=
  match walkOpt b.limit with
  | .error e => .error e
  | .ok l =>
      match walkOpt b.offset with
      | .error e => .error e
      | .ok o => .ok (l ++ o)

/-- `IntoBoxedClause<'_, GaussDB> for LimitOffsetClause<L, O>`: box both
parts as `Some`. -/
def LimitOffsetClause.into_boxed (c : LimitOffsetClause) : BoxedLimitOffsetClause :=
  ⟨some c.limit_clause, some c.offset_clause⟩

/-- C10: when both parts of a `LimitOffsetClause` render to SQL text,
walking the clause produces the limit fragment followed by the offset
fragment, and walking the `into_boxed` conversion produces exactly the
same SQL. -/
theorem limit_offset_into_boxed_spec (c : LimitOffsetClause) (l o : String)
    (hl : c.limit_clause = .ok l) (ho : c.offset_clause = .ok o) :
    c.walk_ast = .ok (l ++ o) ∧
    c.into_boxed.walk_ast = c.walk_ast := by
  constructor
  · rw [LimitOffsetClause.walk_ast, hl, ho]
  · rw [LimitOffsetClause.into_boxed, BoxedLimitOffsetClause.walk_ast]
    simp only [walkOpt]
    rw [LimitOffsetClause.walk_ast]

theorem limit_offset_into_boxed_spec_witness :
    (LimitOffsetClause.mk (.ok " LIMIT 10") (.ok " OFFSET 20")).walk_ast =
      .ok (" LIMIT 10" ++ " OFFSET 20") ∧
    (LimitOffsetClause.mk (.ok " LIMIT 10")
        (.ok " OFFSET 20")).into_boxed.walk_ast =
      (LimitOffsetClause.mk (.ok " LIMIT 10") (.ok " OFFSET 20")).walk_ast :=
  limit_offset_into_boxed_spec ⟨.ok " LIMIT 10", .ok " OFFSET 20"⟩
    " LIMIT 10" " OFFSET 20" rfl rfl

/-! ## `src/query_builder/copy/copy_from.rs`: COPY ... FROM STDIN

`CopyFromOptions` and `CopyHeader` are in `copy_from.rs`; the shared
`CommonOptions`/`CopyFormat` items live in the copy module's parent file,
which is not part of the sources, so they are modelled from the spec. -/

/-- Modelled from the spec: `CopyFormat` from the missing copy module
parent file — the PostgreSQL COPY formats named in its SQL rendering. -/
inductive CopyFormat where
  | Text
  | Csv
  | Binary
  deriving DecidableEq, Repr

/-- Modelled from the spec: the SQL name of a `CopyFormat`. -/
def CopyFormat.sqlName : CopyFormat → String
  | .Text => "TEXT"
  | .Csv => "CSV"
  | .Binary => "BINARY"

/-- Modelled from the spec: `CommonOptions` from the missing copy module
parent file; its fields are exactly the ones the `CopyFromQuery`
builder methods in `copy_from.rs` assign (`format`, `delimiter`, `null`,
`quote`, `escape`, `freeze`). -/
structure CommonOptions where
  format : Option CopyFormat
  freeze : Option Bool
  delimiter : Option Char
  null : Option String
  quote : Option Char
  escape : Option Char
  deriving DecidableEq, Repr

/-- Modelled from the spec: `CommonOptions::any_set` — some common COPY
option is present. -/
def CommonOptions.any_set (o : CommonOptions) : Bool :=
  o.format.isSome || o.freeze.isSome || o.delimiter.isSome || o.null.isSome ||
    o.quote.isSome || o.escape.isSome

/-- One `pass.push_sql(comma); comma = ", "; pass.push_sql(text)` step of
the options rendering: the state is (sql pushed so far, pending comma). -/
def pushOption (st : String × String) : Option String → String × String
  | none => st
  | some t => (st.1 ++ st.2 ++ t, ", ")

/-- Modelled from the spec: `CommonOptions::walk_ast` — render each set
option, comma-separated, threading the comma state. -/
def CommonOptions.walk_ast (o : CommonOptions) (st : String × String) :
    String × String :=
  pushOption (pushOption (pushOption (pushOption (pushOption (pushOption st
    (o.format.map fun f => "FORMAT " ++ f.sqlName))
    (o.freeze.map fun b => "FREEZE " ++ (if b then "1" else "0")))
    (o.delimiter.map fun c => "DELIMITER '" ++ String.singleton c ++ "'"))
    (o.null.map fun n => "NULL '" ++ n ++ "'"))
    (o.quote.map fun c => "QUOTE '" ++ String.singleton c ++ "'"))
    (o.escape.map fun c => "ESCAPE '" ++ String.singleton c ++ "'")

/-- `enum CopyHeader` of `copy_from.rs`. -/
inductive CopyHeader where
  | Set (b : Bool)
  | Match
  deriving DecidableEq, Repr

/-- The text pushed after `"HEADER "` for a `CopyHeader`. -/
def headerSql : CopyHeader → String
  | .Set true => "1"
  | .Set false => "0"
  | .Match => "MATCH"

/-- `struct CopyFromOptions` of `copy_from.rs`. -/
structure CopyFromOptions where
  common : CommonOptions
  default : Option String
  header : Option CopyHeader
  deriving DecidableEq, Repr

/-- `CopyFromOptions::any_set`. -/
def CopyFromOptions.any_set (o : CopyFromOptions) : Bool :=
  o.common.any_set || o.default.isSome || o.header.isSome

/-- The text between the parentheses of the `WITH (...)` clause. -/
def CopyFromOptions.inner_sql (o : CopyFromOptions) : String :=
  (pushOption
    (pushOption (o.common.walk_ast ("", ""))
      (o.default.map fun d => "DEFAULT '" ++ d ++ "'"))
    (o.header.map fun h => "HEADER " ++ headerSql h)).1

/-- `QueryFragment<GaussDB> for CopyFromOptions`: nothing when no option
is set, otherwise `" WITH ("`, the options, `")"`. -/
def CopyFromOptions.walk_ast (o : CopyFromOptions) : String :=
  if o.any_set then " WITH (" ++ o.inner_sql ++ ")" else ""

/-- `QueryFragment<GaussDB> for CopyFromQuery<S, F>`: `"COPY "`, the
rendered copy target, `" FROM STDIN"`, then the options clause. -/
def CopyFromQuery.walk_ast (target : String) (o : CopyFromOptions) : String :=
  "COPY " ++ target ++ " FROM STDIN" ++ o.walk_ast

/-- C6: walking a `CopyFromQuery` emits `"COPY "`, the rendered target,
`" FROM STDIN"`; a trailing `" WITH (" .. ")"` clause appears iff at
least one of format, delimiter, null, quote, escape, freeze, default or
header is set; a header option renders as `HEADER 1`, `HEADER 0` or
`HEADER MATCH` for `Set(true)`, `Set(false)` and `Match`. -/
theorem copy_from_query_spec (target : String) (o : CopyFromOptions) :
    CopyFromQuery.walk_ast target o =
      "COPY " ++ target ++ " FROM STDIN" ++ o.walk_ast ∧
    ((∃ s, o.walk_ast = " WITH (" ++ s ++ ")") ↔
      (o.common.format.isSome = true ∨ o.common.delimiter.isSome = true ∨
        o.common.null.isSome = true ∨ o.common.quote.isSome = true ∨
        o.common.escape.isSome = true ∨ o.common.freeze.isSome = true ∨
        o.default.isSome = true ∨ o.header.isSome = true)) ∧
    (∀ h, o.header = some h →
      ∃ pre, o.inner_sql = pre ++ ("HEADER " ++ headerSql h)) ∧
    "HEADER " ++ headerSql (.Set true) = "HEADER 1" ∧
    "HEADER " ++ headerSql (.Set false) = "HEADER 0" ∧
    "HEADER " ++ headerSql .Match = "HEADER MATCH" := by
  have hiff : o.any_set = true ↔
      (o.common.format.isSome = true ∨ o.common.delimiter.isSome = true ∨
        o.common.null.isSome = true ∨ o.common.quote.isSome = true ∨
        o.common.escape.isSome = true ∨ o.common.freeze.isSome = true ∨
        o.default.isSome = true ∨ o.header.isSome = true) := by
    rw [CopyFromOptions.any_set, CommonOptions.any_set]
    simp only [Bool.or_eq_true]
    tauto
  refine ⟨rfl, ⟨?_, ?_⟩, ?_, rfl, rfl, rfl⟩
  · rintro ⟨s, hs⟩
    rw [CopyFromOptions.walk_ast] at hs
    by_cases ha : o.any_set = true
    · exact hiff.mp ha
    · rw [if_neg ha] at hs
      have hlen := congrArg String.length hs
      have h7 : (" WITH (" : String).length = 7 := rfl
      have h1 : ((")") : String).length = 1 := rfl
      have h0 : ("" : String).length = 0 := rfl
      rw [String.length_append, String.length_append, h7, h1, h0] at hlen
      omega
  · intro hr
    rw [CopyFromOptions.walk_ast, if_pos (hiff.mpr hr)]
    exact ⟨_, rfl⟩
  · intro h hh
    rw [CopyFromOptions.inner_sql, hh]
    exact ⟨_, rfl⟩

theorem copy_from_query_spec_witness :
    CopyFromQuery.walk_ast "users"
        ⟨⟨none, none, none, none, none, none⟩, none, some (.Set true)⟩ =
      "COPY " ++ "users" ++ " FROM STDIN" ++
        (CopyFromOptions.mk ⟨none, none, none, none, none, none⟩ none
          (some (.Set true))).walk_ast ∧
    ((∃ s, (CopyFromOptions.mk ⟨none, none, none, none, none, none⟩ none
        (some (.Set true))).walk_ast = " WITH (" ++ s ++ ")") ↔
      ((none : Option CopyFormat).isSome = true ∨
        (none : Option Char).isSome = true ∨
        (none : Option String).isSome = true ∨
        (none : Option Char).isSome = true ∨
        (none : Option Char).isSome = true ∨
        (none : Option Bool).isSome = true ∨
        (none : Option String).isSome = true ∨
        (some (CopyHeader.Set true)).isSome = true)) ∧
    (∀ h, (some (CopyHeader.Set true) : Option CopyHeader) = some h →
      ∃ pre, (CopyFromOptions.mk ⟨none, none, none, none, none, none⟩ none
          (some (.Set true))).inner_sql = pre ++ ("HEADER " ++ headerSql h)) ∧
    "HEADER " ++ headerSql (.Set true) = "HEADER 1" ∧
    "HEADER " ++ headerSql (.Set false) = "HEADER 0" ∧
    "HEADER " ++ headerSql .Match = "HEADER MATCH" :=
  copy_from_query_spec "users"
    ⟨⟨none, none, none, none, none, none⟩, none, some (.Set true)⟩

end GaussDB
